import Mathlib

/-!
Shallow embedding of the client-side authentication session machinery of the
Django+React authentication example (frontend `AuthContext.jsx`,
`components/Authentication.jsx` and `services/api.js`, as given in the
repository README).

The browser `localStorage` is modelled as an association list of string
key/value pairs.  `JSON.stringify`/`JSON.parse` are modelled on string values
only (the only values this application ever stores), with escaping of the
double-quote and backslash characters.  A `JSON.parse` failure (the JavaScript
function throws a `SyntaxError`) is modelled by `Except.error`, and the
JavaScript `null` by `Option.none`.
-/

set_option autoImplicit false

namespace ESEAuth

/-- The browser localStorage contents: key/value string pairs, unique keys
kept by construction of `setItem`. -/
abbrev Storage := List (String × String)

/-- Model of `localStorage.getItem`: the value at the key, or `null`. -/
def getItem : Storage → String → Option String
  | [], _ => none
  | (k, v) :: rest, key => if k = key then some v else getItem rest key

/-- Model of `localStorage.setItem`: overwrite the entry in place, or append
a fresh entry at the end. -/
def setItem : Storage → String → String → Storage
  | [], key, value => [(key, value)]
  | (k, v) :: rest, key, value =>
    if k = key then (key, value) :: rest else (k, v) :: setItem rest key value

/-- Model of `localStorage.removeItem`: delete the entry at the key (a no-op
when the key is absent). -/
def removeItem (st : Storage) (key : String) : Storage :=
  st.filter (fun p => !(p.1 == key))

/-- Model of JavaScript `String.prototype.startsWith`. -/
def strStartsWith (s pre : String) : Bool :=
  s.data.take pre.data.length == pre.data

/-- The escaping part of `JSON.stringify` on a string: a backslash is put
before every double-quote and every backslash. -/
def jsonEscape : List Char → List Char
  | [] => []
  | c :: rest =>
    if c = '"' ∨ c = '\\' then '\\' :: c :: jsonEscape rest
    else c :: jsonEscape rest

/-- Model of `JSON.stringify` on a string value: the escaped characters
wrapped in double quotes. -/
def jsonStringifyString (s : String) : String :=
  String.mk ('"' :: (jsonEscape s.data ++ ['"']))

/-- Parse the body of a JSON string literal (everything after the opening
quote): returns the decoded characters and the remainder after the closing
quote, or `none` when the literal is malformed. -/
def jsonParseStrAux : (chars : List Char) → Option (List Char × List Char)
  | [] => none
  | c :: rest =>
    if c = '"' then some ([], rest)
    else if c = '\\' then
      match rest with
      | [] => none
      | e :: tail =>
        if e = '"' ∨ e = '\\' then
          match jsonParseStrAux tail with
          | some (cs, rem) => some (e :: cs, rem)
          | none => none
        else none
    else
      match jsonParseStrAux rest with
      | some (cs, rem) => some (c :: cs, rem)
      | none => none
termination_by structural chars => chars

/-- Model of `JSON.parse` restricted to string literals, the only JSON values
this application ever writes: `none` when the text is not exactly one
well-formed JSON string literal (where `JSON.parse` throws). -/
def jsonParseString (s : String) : Option String :=
  match s.data with
  | '"' :: rest =>
    match jsonParseStrAux rest with
    | some (cs, []) => some (String.mk cs)
    | _ => none
  | _ => none

/-- `LOCAL_STORAGE_NAMESPACE` of `AuthContext.jsx`. -/
def LOCAL_STORAGE_NAMESPACE : String := "appAuthentication"

/-- The namespace followed by the separating dot, the string every key of
this application starts with. -/
def nsDot : String := LOCAL_STORAGE_NAMESPACE ++ "."

/-- The storage key used for `key`: the template `NS.key` of
`AuthContext.jsx`. -/
def nsKey (key : String) : String := nsDot ++ key

namespace authStorage

/-- `authStorage.set`: `JSON.stringify` the value and store it under the
namespaced key. -/
def set (st : Storage) (key value : String) : Storage :=
  setItem st (nsKey key) (jsonStringifyString value)

/-- `authStorage.get`: read the namespaced key; a missing key or an empty
raw item gives `null` (`item ? JSON.parse(item) : null`), otherwise the item
is parsed, and a parse failure propagates as a thrown error. -/
def get (st : Storage) (key : String) : Except String (Option String) :=
  match getItem st (nsKey key) with
  | none => Except.ok none
  | some item =>
    if item = "" then Except.ok none
    else
      match jsonParseString item with
      | some v => Except.ok (some v)
      | none => Except.error "SyntaxError: Unexpected token in JSON"

/-- `authStorage.remove`: delete the namespaced key. -/
def remove (st : Storage) (key : String) : Storage :=
  removeItem st (nsKey key)

/-- `authStorage.clear`: delete every key that starts with the namespace
followed by a dot, and nothing else. -/
def clear (st : Storage) : Storage :=
  st.filter (fun p => !(strStartsWith p.1 nsDot))

end authStorage

/-- The state visible to `AuthProvider`: the persistent storage plus the
in-memory React snapshot `isLoggedIn`/`username`. -/
structure AuthState where
  storage : Storage
  isLoggedIn : Bool
  username : Option String
  deriving Repr, DecidableEq

/-- JavaScript truthiness of the values `authStorage.get` can produce:
`null` and the empty string are falsy, every other string is truthy. -/
def truthy : Option String → Bool
  | none => false
  | some s => if s = "" then false else true

/-- `checkLoginStatus` of `AuthContext.jsx`: re-read the access token and the
username from storage and set the snapshot accordingly. -/
def checkLoginStatus (s : AuthState) : Except String AuthState :=
  match authStorage.get s.storage "access_token" with
  | Except.error e => Except.error e
  | Except.ok token =>
    match authStorage.get s.storage "username" with
    | Except.error e => Except.error e
    | Except.ok storedUsername =>
      if truthy token && truthy storedUsername then
        Except.ok { s with isLoggedIn := true, username := storedUsername }
      else
        Except.ok { s with isLoggedIn := false, username := none }

/-- `login` of `AuthContext.jsx`: store the three values (access token, then
refresh token, then username, in source order) and set the snapshot. -/
def login (s : AuthState) (accessToken refreshToken user : String) : AuthState :=
  let st1 := authStorage.set s.storage "access_token" accessToken
  let st2 := authStorage.set st1 "refresh_token" refreshToken
  let st3 := authStorage.set st2 "username" user
  { storage := st3, isLoggedIn := true, username := some user }

/-- `logout` of `AuthContext.jsx`: clear the namespaced storage and the
snapshot. -/
def logout (s : AuthState) : AuthState :=
  { storage := authStorage.clear s.storage, isLoggedIn := false, username := none }

/-- `getAccessToken` of `AuthContext.jsx`: a pure read of the store. -/
def getAccessToken (s : AuthState) : Except String (Option String) :=
  authStorage.get s.storage "access_token"

/-- `getRefreshToken` of `AuthContext.jsx`: a pure read of the store. -/
def getRefreshToken (s : AuthState) : Except String (Option String) :=
  authStorage.get s.storage "refresh_token"

/-! ### Basic lemmas about the storage model -/

theorem getItem_setItem_self (st : Storage) (k v : String) :
    getItem (setItem st k v) k = some v := by
  induction st with
  | nil => simp [setItem, getItem]
  | cons p rest ih =>
    by_cases h : p.1 = k
    · simp [setItem, h, getItem]
    · simp [setItem, h, getItem, ih]

theorem getItem_setItem_ne (st : Storage) (k k' v : String) (h : k ≠ k') :
    getItem (setItem st k v) k' = getItem st k' := by
  induction st with
  | nil => simp [setItem, getItem, h]
  | cons p rest ih =>
    by_cases hp : p.1 = k
    · simp [setItem, hp, getItem, h]
    · simp [setItem, hp, getItem, ih]

theorem getItem_removeItem_self (st : Storage) (k : String) :
    getItem (removeItem st k) k = none := by
  induction st with
  | nil => simp [removeItem, getItem]
  | cons p rest ih =>
    obtain ⟨pk, pv⟩ := p
    simp only [removeItem] at ih ⊢
    by_cases h : pk = k
    · simp [List.filter_cons, h, ih]
    · simp [List.filter_cons, h, getItem, ih]

/-! ### The JSON string codec round-trips -/

theorem jsonParseStrAux_escape (cs rem : List Char) :
    jsonParseStrAux (jsonEscape cs ++ '"' :: rem) = some (cs, rem) := by
  induction cs with
  | nil =>
    simp only [jsonEscape, List.nil_append]
    unfold jsonParseStrAux
    simp
  | cons c cs ih =>
    by_cases hc : c = '"' ∨ c = '\\'
    · have hbs : ('\\' : Char) ≠ '"' := by decide
      simp only [jsonEscape, hc, if_true, List.cons_append]
      unfold jsonParseStrAux
      simp [hbs, hc, ih]
    · have hq : c ≠ '"' := fun h => hc (Or.inl h)
      have hb : c ≠ '\\' := fun h => hc (Or.inr h)
      simp only [jsonEscape, hc, if_false, List.cons_append]
      unfold jsonParseStrAux
      simp [hq, hb, ih]

theorem jsonParse_stringify (s : String) :
    jsonParseString (jsonStringifyString s) = some s := by
  show jsonParseString (String.mk ('"' :: (jsonEscape s.data ++ ['"']))) = some s
  unfold jsonParseString
  have : jsonEscape s.data ++ ['"'] = jsonEscape s.data ++ '"' :: [] := rfl
  simp [this, jsonParseStrAux_escape]

theorem jsonStringify_ne_empty (s : String) : jsonStringifyString s ≠ "" := by
  intro h
  have := congrArg String.data h
  simp [jsonStringifyString] at this

theorem get_set_self (st : Storage) (key v : String) :
    authStorage.get (authStorage.set st key v) key = Except.ok (some v) := by
  simp [authStorage.get, authStorage.set, getItem_setItem_self,
    jsonStringify_ne_empty, jsonParse_stringify]

theorem get_set_ne (st : Storage) (key key' v : String) (h : nsKey key ≠ nsKey key') :
    authStorage.get (authStorage.set st key v) key' = authStorage.get st key' := by
  simp [authStorage.get, authStorage.set, getItem_setItem_ne _ _ _ _ h]

/-! ### The clear operation -/

theorem strStartsWith_nsKey (k : String) : strStartsWith (nsKey k) nsDot = true := by
  have hdata : (nsKey k).data = nsDot.data ++ k.data := by
    simp [nsKey]
  simp [strStartsWith, hdata, List.take_left]

theorem getItem_clear_ns (st : Storage) (k : String)
    (h : strStartsWith k nsDot = true) :
    getItem (authStorage.clear st) k = none := by
  induction st with
  | nil => simp [authStorage.clear, getItem]
  | cons p rest ih =>
    obtain ⟨pk, pv⟩ := p
    simp only [authStorage.clear] at ih ⊢
    by_cases hp : strStartsWith pk nsDot
    · simp [List.filter_cons, hp, ih]
    · have hne : pk ≠ k := by
        intro he
        rw [he, h] at hp
        exact hp rfl
      simp [List.filter_cons, hp, getItem, hne, ih]

theorem getItem_clear_outside (st : Storage) (k : String)
    (h : strStartsWith k nsDot = false) :
    getItem (authStorage.clear st) k = getItem st k := by
  induction st with
  | nil => simp [authStorage.clear]
  | cons p rest ih =>
    obtain ⟨pk, pv⟩ := p
    simp only [authStorage.clear] at ih ⊢
    by_cases hp : strStartsWith pk nsDot
    · have hne : pk ≠ k := by
        intro he
        rw [he, h] at hp
        cases hp
      simp [List.filter_cons, hp, getItem, hne, ih]
    · by_cases he : pk = k
      · simp [List.filter_cons, hp, getItem, he, h]
      · simp [List.filter_cons, hp, getItem, he, ih]

theorem clear_no_ns_left (st : Storage) :
    (authStorage.clear st).filter (fun p => strStartsWith p.1 nsDot) = [] := by
  induction st with
  | nil => simp [authStorage.clear]
  | cons p rest ih =>
    obtain ⟨pk, pv⟩ := p
    simp only [authStorage.clear] at ih ⊢
    by_cases hp : strStartsWith pk nsDot
    · simp [List.filter_cons, hp, ih]
    · simp [List.filter_cons, hp, ih]

theorem clear_outside_pairs (st : Storage) :
    (authStorage.clear st).filter (fun p => !(strStartsWith p.1 nsDot)) =
      st.filter (fun p => !(strStartsWith p.1 nsDot)) := by
  induction st with
  | nil => simp [authStorage.clear]
  | cons p rest ih =>
    obtain ⟨pk, pv⟩ := p
    simp only [authStorage.clear] at ih ⊢
    by_cases hp : strStartsWith pk nsDot
    · simp [List.filter_cons, hp, ih]
    · simp [List.filter_cons, hp, ih]

/-! ### How the session operations read back what login wrote -/

theorem login_storage (s : AuthState) (a r u : String) :
    (login s a r u).storage =
      authStorage.set (authStorage.set (authStorage.set s.storage "access_token" a)
        "refresh_token" r) "username" u := rfl

theorem get_login_access (s : AuthState) (a r u : String) :
    authStorage.get (login s a r u).storage "access_token" = Except.ok (some a) := by
  rw [login_storage, get_set_ne _ _ _ _ (by decide), get_set_ne _ _ _ _ (by decide),
    get_set_self]

theorem get_login_refresh (s : AuthState) (a r u : String) :
    authStorage.get (login s a r u).storage "refresh_token" = Except.ok (some r) := by
  rw [login_storage, get_set_ne _ _ _ _ (by decide), get_set_self]

theorem get_login_username (s : AuthState) (a r u : String) :
    authStorage.get (login s a r u).storage "username" = Except.ok (some u) := by
  rw [login_storage, get_set_self]

theorem checkLoginStatus_eq (s : AuthState) (ta tu : Option String)
    (ha : authStorage.get s.storage "access_token" = Except.ok ta)
    (hu : authStorage.get s.storage "username" = Except.ok tu) :
    checkLoginStatus s =
      (if truthy ta && truthy tu then
        Except.ok { s with isLoggedIn := true, username := tu }
      else
        Except.ok { s with isLoggedIn := false, username := none }) := by
  rw [checkLoginStatus, ha, hu]

theorem checkLoginStatus_storage (s s' : AuthState)
    (h : checkLoginStatus s = Except.ok s') : s'.storage = s.storage := by
  rw [checkLoginStatus] at h
  cases ha : authStorage.get s.storage "access_token" with
  | error e => rw [ha] at h; cases h
  | ok token =>
    rw [ha] at h
    cases hu : authStorage.get s.storage "username" with
    | error e => rw [hu] at h; cases h
    | ok tu =>
      rw [hu] at h
      by_cases hc : (truthy token && truthy tu) = true
      · simp only [hc, if_true] at h
        cases h
        rfl
      · simp only [hc, if_false] at h
        cases h
        rfl

/-- The spec's Session-Store invariant: an access token stored under the
namespace implies an identity stored under the namespace. -/
def SessionInv (st : Storage) : Prop :=
  (getItem st (nsKey "access_token")).isSome = true →
    (getItem st (nsKey "username")).isSome = true

instance (st : Storage) : Decidable (SessionInv st) := by
  unfold SessionInv
  infer_instance

/-! ### Abstract Session Store contents (used to quantify over what the three
fields hold: each is absent or holds a string written by `authStorage.set`) -/

/-- Write a field when it is present, leave the store alone when absent. -/
def optSet (st : Storage) (key : String) : Option String → Storage
  | none => st
  | some v => authStorage.set st key v

/-- A Session Store holding exactly the given access-token, refresh-token and
username fields (each `none` when absent). -/
def mkStore (a r u : Option String) : Storage :=
  optSet (optSet (optSet [] "username" u) "refresh_token" r) "access_token" a

theorem get_mkStore_access (a r u : Option String) :
    authStorage.get (mkStore a r u) "access_token" = Except.ok a := by
  cases a with
  | some v => simp [mkStore, optSet, get_set_self]
  | none =>
    cases r with
    | some w =>
      cases u with
      | some x =>
        simp [mkStore, optSet]
        rw [get_set_ne _ _ _ _ (by decide), get_set_ne _ _ _ _ (by decide)]
        rfl
      | none =>
        simp [mkStore, optSet]
        rw [get_set_ne _ _ _ _ (by decide)]
        rfl
    | none =>
      cases u with
      | some x =>
        simp [mkStore, optSet]
        rw [get_set_ne _ _ _ _ (by decide)]
        rfl
      | none => rfl

theorem get_mkStore_username (a r u : Option String) :
    authStorage.get (mkStore a r u) "username" = Except.ok u := by
  cases a with
  | some v =>
    cases r with
    | some w =>
      cases u with
      | some x =>
        simp [mkStore, optSet]
        rw [get_set_ne _ _ _ _ (by decide), get_set_ne _ _ _ _ (by decide), get_set_self]
      | none =>
        simp [mkStore, optSet]
        rw [get_set_ne _ _ _ _ (by decide), get_set_ne _ _ _ _ (by decide)]
        rfl
    | none =>
      cases u with
      | some x =>
        simp [mkStore, optSet]
        rw [get_set_ne _ _ _ _ (by decide), get_set_self]
      | none =>
        simp [mkStore, optSet]
        rw [get_set_ne _ _ _ _ (by decide)]
        rfl
  | none =>
    cases r with
    | some w =>
      cases u with
      | some x =>
        simp [mkStore, optSet]
        rw [get_set_ne _ _ _ _ (by decide), get_set_self]
      | none =>
        simp [mkStore, optSet]
        rw [get_set_ne _ _ _ _ (by decide)]
        rfl
    | none =>
      cases u with
      | some x => simp [mkStore, optSet, get_set_self]
      | none => rfl

/-! ### The write trace of login (for the write-ordering claim) -/

/-- The `authStorage.set` calls performed by `login`, as (key, value) pairs in
the order they appear in the source. -/
def loginWrites (accessToken refreshToken user : String) : List (String × String) :=
  [("access_token", accessToken), ("refresh_token", refreshToken), ("username", user)]

/-- Run a list of Session-Store writes in order. -/
def applyWrites (st : Storage) (ws : List (String × String)) : Storage :=
  ws.foldl (fun acc kv => authStorage.set acc kv.1 kv.2) st

/-- The write order the spec asks for: the identity key is written strictly
before the access-token key and before the refresh-token key. -/
def identityThenTokens (ws : List (String × String)) : Prop :=
  ws.findIdx (fun p => p.1 == "username") < ws.findIdx (fun p => p.1 == "access_token") ∧
  ws.findIdx (fun p => p.1 == "username") < ws.findIdx (fun p => p.1 == "refresh_token")

instance (ws : List (String × String)) : Decidable (identityThenTokens ws) := by
  unfold identityThenTokens
  infer_instance

/-! ### The compound registration operation (Register + AuthForm handleSubmit) -/

/-- The error message `AuthForm.handleSubmit` shows when the submit handler
throws. -/
def authFormErrorMessage : String :=
  "An error occurred (see details in the console). Please try again."

/-- The `{access, refresh}` body of a successful Identity-Service response. -/
structure TokenPair where
  access : String
  refresh : String

/-- `Register`'s `handleSubmit` wrapped in `AuthForm.handleSubmit`'s
try/catch: await `apiRegister` (its response body is unused), then await
`apiLogin`, then `login`; a rejection of either call is caught and turned
into the form error message, with no state change.  The result is the new
auth state paired with the form's error message, `none` when no error is
shown. -/
def registerHandleSubmit (s : AuthState) (regResult : Except String Unit)
    (loginResult : Except String TokenPair) (user : String) :
    AuthState × Option String :=
  match regResult with
  | Except.error _ => (s, some authFormErrorMessage)
  | Except.ok _ =>
    match loginResult with
    | Except.error _ => (s, some authFormErrorMessage)
    | Except.ok d => (login s d.access d.refresh user, none)

theorem get_clear (st : Storage) (key : String) :
    authStorage.get (authStorage.clear st) key = Except.ok none := by
  simp [authStorage.get, getItem_clear_ns _ _ (strStartsWith_nsKey key)]

/-! ### The claims -/

/-- Claim C1: for every sequence of operations ending in
`login(accessToken, refreshToken, identity)` with all three values non-empty,
followed by `checkStatus`, `checkStatus` reports Authenticated and the
identity equals the one passed to `login`.  (The arbitrary prior state `s`
covers every operation sequence before the final `login`.) -/
theorem C1_login_then_checkStatus (s : AuthState) (a r u : String)
    (ha : a ≠ "") (_hr : r ≠ "") (hu : u ≠ "") :
    checkLoginStatus (login s a r u) =
      Except.ok { storage := (login s a r u).storage, isLoggedIn := true,
                  username := some u } := by
  rw [checkLoginStatus_eq _ _ _ (get_login_access s a r u) (get_login_username s a r u)]
  simp [truthy, ha, hu]

theorem C1_login_then_checkStatus_witness :
    checkLoginStatus (login ⟨[], false, none⟩ "access123" "refresh456" "alice") =
      Except.ok { storage := (login ⟨[], false, none⟩ "access123" "refresh456" "alice").storage,
                  isLoggedIn := true, username := some "alice" } :=
  C1_login_then_checkStatus ⟨[], false, none⟩ "access123" "refresh456" "alice"
    (by decide) (by decide) (by decide)

/-- Claim C2 counterexample: a Session Store holding the access token as the
empty string and the identity "alice" has both keys present, yet
`checkLoginStatus` sets `loggedIn` to false and reports Anonymous — so
`loggedIn` is not equivalent to plain key presence. -/
theorem C2_presence_counterexample :
    (getItem (mkStore (some "") none (some "alice")) (nsKey "access_token")).isSome = true ∧
    (getItem (mkStore (some "") none (some "alice")) (nsKey "username")).isSome = true ∧
    checkLoginStatus ⟨mkStore (some "") none (some "alice"), false, none⟩ =
      Except.ok ⟨mkStore (some "") none (some "alice"), false, none⟩ :=
  ⟨rfl, rfl, rfl⟩

/-- Claim C2 amended: for every Session Store content (each field absent or
holding a stored string), `checkStatus` sets the in-memory `loggedIn` flag to
true if and only if both the access token and the identity are present with
non-empty (truthy) values — the refresh token never affects the result — and
reports Anonymous (flag false, identity snapshot cleared) otherwise. -/
theorem C2_checkStatus_truthy_presence (a r u : Option String) (b : Bool)
    (n : Option String) :
    checkLoginStatus ⟨mkStore a r u, b, n⟩ =
      Except.ok ⟨mkStore a r u, truthy a && truthy u,
        if truthy a && truthy u then u else none⟩ := by
  rw [checkLoginStatus_eq _ _ _ (get_mkStore_access a r u) (get_mkStore_username a r u)]
  by_cases hc : (truthy a && truthy u) = true
  · simp [hc]
  · simp [hc]

/-- Claim C3: from every state, `logout` followed by `checkStatus` reports
Anonymous, and `getAccessToken`/`getRefreshToken` both return the absent
value. -/
theorem C3_logout_then_checkStatus (s : AuthState) :
    checkLoginStatus (logout s) =
      Except.ok { storage := (logout s).storage, isLoggedIn := false,
                  username := none } ∧
    getAccessToken (logout s) = Except.ok none ∧
    getRefreshToken (logout s) = Except.ok none := by
  refine ⟨?_, ?_, ?_⟩
  · rw [checkLoginStatus_eq (logout s) none none (get_clear s.storage "access_token")
      (get_clear s.storage "username")]
    simp [truthy]
  · exact get_clear s.storage "access_token"
  · exact get_clear s.storage "refresh_token"

/-- Claim C4: the invariant "access token present in the Session Store
implies identity present" holds in the initial empty store and is preserved
by login (with non-empty arguments), logout and checkStatus.
(`getAccessToken`/`getRefreshToken` are pure reads: their Lean type has no
state output, so there is nothing for them to preserve.) -/
theorem C4_invariant_preserved :
    SessionInv ([] : Storage) ∧
    (∀ (s : AuthState) (a r u : String), a ≠ "" → r ≠ "" → u ≠ "" →
      SessionInv (login s a r u).storage) ∧
    (∀ s : AuthState, SessionInv (logout s).storage) ∧
    (∀ s s' : AuthState, SessionInv s.storage → checkLoginStatus s = Except.ok s' →
      SessionInv s'.storage) := by
  refine ⟨?_, ?_, ?_, ?_⟩
  · intro h
    simp [getItem] at h
  · intro s a r u _ _ _ _
    rw [login_storage]
    simp [authStorage.set, getItem_setItem_self]
  · intro s h
    rw [show (logout s).storage = authStorage.clear s.storage from rfl,
      getItem_clear_ns s.storage _ (strStartsWith_nsKey "access_token")] at h
    cases h
  · intro s s' hinv h
    rw [checkLoginStatus_storage s s' h]
    exact hinv

theorem C4_invariant_preserved_witness :
    SessionInv (login ⟨[], false, none⟩ "access123" "refresh456" "alice").storage ∧
    SessionInv (logout ⟨mkStore (some "tok") none (some "bob"), true, some "bob"⟩).storage ∧
    SessionInv (⟨[], false, none⟩ : AuthState).storage :=
  ⟨C4_invariant_preserved.2.1 ⟨[], false, none⟩ "access123" "refresh456" "alice"
      (by decide) (by decide) (by decide),
   C4_invariant_preserved.2.2.1 ⟨mkStore (some "tok") none (some "bob"), true, some "bob"⟩,
   C4_invariant_preserved.2.2.2 ⟨[], false, none⟩ ⟨[], false, none⟩ (by decide) rfl⟩

/-- Claim C5 counterexample: on the concrete login call
`login("access123", "refresh456", "alice")` the write trace does not put the
identity key before the token keys — the identity is written last. -/
theorem C5_order_counterexample :
    ¬ identityThenTokens (loginWrites "access123" "refresh456" "alice") := by
  decide

/-- Claim C5 amended: `login` performs its three Session Store writes in
tokens-then-identity order — access token first, then refresh token, then
identity — so a failure partway through the writes (here: only the first
write completed, from the empty store) leaves an access token present with
no identity. -/
theorem C5_tokens_then_identity (s : AuthState) (a r u : String) :
    (loginWrites a r u).map Prod.fst = ["access_token", "refresh_token", "username"] ∧
    applyWrites s.storage (loginWrites a r u) = (login s a r u).storage ∧
    getItem (applyWrites [] ((loginWrites a r u).take 1)) (nsKey "access_token") =
      some (jsonStringifyString a) ∧
    getItem (applyWrites [] ((loginWrites a r u).take 1)) (nsKey "username") = none := by
  refine ⟨rfl, rfl, ?_, ?_⟩
  · show getItem (setItem [] (nsKey "access_token") (jsonStringifyString a))
      (nsKey "access_token") = some (jsonStringifyString a)
    exact getItem_setItem_self [] _ _
  · show getItem (setItem [] (nsKey "access_token") (jsonStringifyString a))
      (nsKey "username") = none
    rw [getItem_setItem_ne _ _ _ _ (by decide)]
    rfl

/-- Claim C6: when the registration call to the Identity Service fails, the
compound register operation performs no state transition — the Session Store
and the in-memory snapshot are exactly the prior state, and only the form
error message is produced. -/
theorem C6_register_error_atomicity (s : AuthState) (e : String)
    (loginResult : Except String TokenPair) (user : String) :
    registerHandleSubmit s (Except.error e) loginResult user =
      (s, some authFormErrorMessage) := rfl

/-- Claim C7: for every storage state, the clear performed by `logout`
removes exactly the keys under the namespace: afterwards zero namespaced
keys remain, the key/value pairs outside the namespace are exactly those of
the original store, and reading any non-namespaced key is unchanged. -/
theorem C7_clear_exact (s : AuthState) (k : String) :
    ((logout s).storage).filter (fun p => strStartsWith p.1 nsDot) = [] ∧
    ((logout s).storage).filter (fun p => !(strStartsWith p.1 nsDot)) =
      (s.storage).filter (fun p => !(strStartsWith p.1 nsDot)) ∧
    (strStartsWith k nsDot = false →
      getItem (logout s).storage k = getItem s.storage k) :=
  ⟨clear_no_ns_left s.storage, clear_outside_pairs s.storage,
   fun h => getItem_clear_outside s.storage k h⟩

theorem C7_clear_exact_witness :
    getItem (logout ⟨[("other.key", "v"), (nsKey "access_token", "\"x\"")], true,
      some "u"⟩).storage "other.key" =
    getItem ([("other.key", "v"), (nsKey "access_token", "\"x\"")] : Storage)
      "other.key" :=
  (C7_clear_exact ⟨[("other.key", "v"), (nsKey "access_token", "\"x\"")], true,
    some "u"⟩ "other.key").2.2 (by decide)

/-- Claim C8: for every key that is absent from the underlying storage (never
set) or was just removed, `authStorage.get` returns the explicit absent value
`Except.ok none` — it does not throw. -/
theorem C8_get_missing (st : Storage) (key : String) :
    (getItem st (nsKey key) = none → authStorage.get st key = Except.ok none) ∧
    authStorage.get (authStorage.remove st key) key = Except.ok none := by
  constructor
  · intro h
    simp [authStorage.get, h]
  · simp [authStorage.get, authStorage.remove, getItem_removeItem_self]

theorem C8_get_missing_witness :
    authStorage.get ([("unrelated", "v")] : Storage) "access_token" = Except.ok none ∧
    authStorage.get (authStorage.remove [("unrelated", "v")] "access_token")
      "access_token" = Except.ok none :=
  ⟨(C8_get_missing [("unrelated", "v")] "access_token").1 (by decide),
   (C8_get_missing [("unrelated", "v")] "access_token").2⟩

/-- Claim C9: calling `login` with an empty access token or an empty identity
sets the in-memory snapshot to Authenticated (`isLoggedIn = true`, identity
recorded), but a subsequent `checkStatus` reports Anonymous, because the
stored empty string is falsy in the presence test — snapshot and store
disagree until `checkStatus` runs. -/
theorem C9_empty_login_disagrees (s : AuthState) (a r u : String)
    (h : a = "" ∨ u = "") :
    (login s a r u).isLoggedIn = true ∧
    (login s a r u).username = some u ∧
    checkLoginStatus (login s a r u) =
      Except.ok { storage := (login s a r u).storage, isLoggedIn := false,
                  username := none } := by
  refine ⟨rfl, rfl, ?_⟩
  rw [checkLoginStatus_eq _ _ _ (get_login_access s a r u) (get_login_username s a r u)]
  rcases h with h | h <;> simp [truthy, h]

theorem C9_empty_login_disagrees_witness :
    (login ⟨[], false, none⟩ "" "refresh456" "alice").isLoggedIn = true ∧
    (login ⟨[], false, none⟩ "" "refresh456" "alice").username = some "alice" ∧
    checkLoginStatus (login ⟨[], false, none⟩ "" "refresh456" "alice") =
      Except.ok { storage := (login ⟨[], false, none⟩ "" "refresh456" "alice").storage,
                  isLoggedIn := false, username := none } :=
  C9_empty_login_disagrees ⟨[], false, none⟩ "" "refresh456" "alice" (Or.inl rfl)

/-- Claim C10: for every key and every non-empty string value, reading the
key right after setting it returns exactly that value — the JSON
serialize/deserialize pair round-trips on stored strings. -/
theorem C10_set_get_roundtrip (st : Storage) (key v : String) (_h : v ≠ "") :
    authStorage.get (authStorage.set st key v) key = Except.ok (some v) :=
  get_set_self st key v

theorem C10_set_get_roundtrip_witness :
    authStorage.get (authStorage.set [] "refresh_token" "refresh456")
      "refresh_token" = Except.ok (some "refresh456") :=
  C10_set_get_roundtrip [] "refresh_token" "refresh456" (by decide)

end ESEAuth
